import Mathlib

/-!
Verification development for `app_top_pages.py`, a Search Console top-pages
report tool.

Embedding conventions:
* a pandas `DataFrame` of metric rows is a `List MetricRow`;
* floating-point average positions are modelled as rationals (`ℚ`);
* `pd.merge(..., on='Page', how='outer', suffixes=('_old','_new')).fillna(0)`
  is `mergeOuter` (matching pairs row-by-row, zero-filling the missing side,
  unmatched right rows appended after the left block, as pandas does with
  `sort=False`);
* `nlargest` / `nsmallest` (pandas default `keep='first'`) are a stable sort
  by the key followed by `take k`;
* the Search Console service handle is a function from a site URL and a
  request body to `Except` (exception or row list); `st.error` / `st.warning`
  / `st.info` / `st.success` calls are collected as a list of message strings;
* the f-string insight templates are modelled by the `Insight` inductive
  carrying the payload each template interpolates; `signedIntStr` models the
  sign-forcing integer format used for the click change;
* the module-level Streamlit script (one rerun, button pressed or not) is
  `run_ui`, with dates modelled as integers and `isoformat` as `toString`.
-/

/-- One row of a fetched metric table: page key, clicks and average position
(the columns built by `fetch_search_console_data`). -/
structure MetricRow where
  page : String
  clicks : Int
  position : ℚ
  deriving DecidableEq, Repr

/-- One row of the outer-joined table before the delta columns are added:
`Page`, `Clicks_old`, `Clicks_new`, `Position_old`, `Position_new`,
with missing sides already zero-filled (`fillna(0)`). -/
structure MergedRow where
  page : String
  clicksOld : Int
  clicksNew : Int
  positionOld : ℚ
  positionNew : ℚ
  deriving DecidableEq, Repr

/-- A merged row together with the two computed delta columns
`Click Change` and `Avg Pos Change`. -/
structure CombinedRow where
  page : String
  clicksOld : Int
  clicksNew : Int
  positionOld : ℚ
  positionNew : ℚ
  clickChange : Int
  posChange : ℚ
  deriving DecidableEq, Repr

/-- Join of a left row with a matching right row (same page on both sides). -/
def combineBoth (o n : MetricRow) : MergedRow :=
  { page := o.page, clicksOld := o.clicks, clicksNew := n.clicks,
    positionOld := o.position, positionNew := n.position }

/-- A left row with no match: the `_new` columns are `NaN` and `fillna(0)`
turns them into zeros. -/
def leftOnly (o : MetricRow) : MergedRow :=
  { page := o.page, clicksOld := o.clicks, clicksNew := 0,
    positionOld := o.position, positionNew := 0 }

/-- A right row with no match: the `_old` columns are zero-filled. -/
def rightOnly (n : MetricRow) : MergedRow :=
  { page := n.page, clicksOld := 0, clicksNew := n.clicks,
    positionOld := 0, positionNew := n.position }

/-- The outer merge on `Page` with zero fill
(`pd.merge(df_old, df_new, on='Page', how='outer', suffixes=('_old', '_new')).fillna(0)`):
each left row pairs with every matching right row (or is zero-filled when
unmatched), then the unmatched right rows follow in their input order. -/
def mergeOuter (df_old df_new : List MetricRow) : List MergedRow :=
  (df_old.flatMap fun o =>
    match df_new.filter (fun n => n.page == o.page) with
    | [] => [leftOnly o]
    | ms => ms.map (combineBoth o)) ++
  (df_new.filter (fun n => df_old.all (fun o => !(o.page == n.page)))).map rightOnly

/-- Adding the delta columns:
`merged_df['Click Change'] = merged_df['Clicks_new'] - merged_df['Clicks_old']` and
`merged_df['Avg Pos Change'] = merged_df['Position_new'] - merged_df['Position_old']`. -/
def addChanges (r : MergedRow) : CombinedRow :=
  { page := r.page, clicksOld := r.clicksOld, clicksNew := r.clicksNew,
    positionOld := r.positionOld, positionNew := r.positionNew,
    clickChange := r.clicksNew - r.clicksOld,
    posChange := r.positionNew - r.positionOld }

/-- The combined table of `identify_top_pages`: outer merge plus delta columns. -/
def combinedTable (df_old df_new : List MetricRow) : List CombinedRow :=
  (mergeOuter df_old df_new).map addChanges

/-- `merged_df.nlargest(k, 'Click Change')` with the default `keep='first'`:
stable sort by `Click Change` descending, then the first `k` rows. -/
def nlargestClicks (k : Nat) (l : List CombinedRow) : List CombinedRow :=
  (l.mergeSort fun a b => decide (b.clickChange ≤ a.clickChange)).take k

/-- `merged_df.nsmallest(k, 'Click Change')` with the default `keep='first'`:
stable sort by `Click Change` ascending, then the first `k` rows. -/
def nsmallestClicks (k : Nat) (l : List CombinedRow) : List CombinedRow :=
  (l.mergeSort fun a b => decide (a.clickChange ≤ b.clickChange)).take k

/-- `identify_top_pages(df_old, df_new)`: build the combined table, then
return the top 8 improved and top 8 dropped rows by `Click Change`. -/
def identify_top_pages (df_old df_new : List MetricRow) :
    List CombinedRow × List CombinedRow :=
  let merged_df := combinedTable df_old df_new
  (nlargestClicks 8 merged_df, nsmallestClicks 8 merged_df)

/-- The four f-string templates of `generate_page_insights`, each carrying
exactly the values the template interpolates. -/
inductive Insight where
  | newlyRanking (page : String) (clickChange : Int) (positionNew : ℚ)
  | positionImproved (page : String) (clickChange : Int) (positionOld positionNew : ℚ)
  | positionDecreased (page : String) (clickChange : Int) (positionOld positionNew : ℚ)
  | fluctuation (page : String) (clickChange : Int)
  deriving DecidableEq, Repr

/-- The Python format `f"{n:+}"` applied to an integer: an explicit sign is
always rendered (`+` for zero and positive values). -/
def signedIntStr (n : Int) : String :=
  if 0 ≤ n then "+" ++ toString n else toString n

/-- The per-row branch structure of `generate_page_insights`. -/
def rowInsight (row : CombinedRow) (is_improvement : Bool) : Insight :=
  if is_improvement then
    if row.clicksOld = 0 ∧ row.clickChange > 0 then
      .newlyRanking row.page row.clickChange row.positionNew
    else if row.clickChange > 0 ∧ row.posChange < 0 then
      .positionImproved row.page row.clickChange row.positionOld row.positionNew
    else
      .fluctuation row.page row.clickChange
  else
    if row.clickChange < 0 ∧ row.posChange > 0 then
      .positionDecreased row.page row.clickChange row.positionOld row.positionNew
    else
      .fluctuation row.page row.clickChange

/-- `generate_page_insights(top_pages, is_improvement)`: one insight per row,
in row order. -/
def generate_page_insights (top_pages : List CombinedRow) (is_improvement : Bool) :
    List Insight :=
  top_pages.map (rowInsight · is_improvement)

/-- The request body built by `fetch_search_console_data`. -/
structure GSCRequest where
  startDate : String
  endDate : String
  dimensions : List String
  rowLimit : Nat
  deriving DecidableEq, Repr

/-- One raw row of a Search Console response: a `keys` list (possibly empty,
modelling a missing or empty `keys` entry) and optional `clicks` / `position`
values (read with `.get(..., 0)` in the source). -/
structure GSCRow where
  keys : List String
  clicks : Option Int
  position : Option ℚ
  deriving DecidableEq, Repr

/-- Conversion of one raw response row to a `MetricRow`
(`row['keys'][0]`, `row.get('clicks', 0)`, `row.get('position', 0)`);
`none` when `keys` is empty, where the Python subscript raises. -/
def rowToMetric (row : GSCRow) : Option MetricRow :=
  match row.keys with
  | [] => none
  | k :: _ => some { page := k, clicks := row.clicks.getD 0, position := row.position.getD 0 }

/-- The list comprehension over `response.get('rows', [])`: builds every
`MetricRow`, or fails as a whole (raising into the `except` handler) if any
single row is malformed. -/
def mapRows : List GSCRow → Option (List MetricRow)
  | [] => some []
  | r :: rs =>
    match rowToMetric r, mapRows rs with
    | some m, some ms => some (m :: ms)
    | _, _ => none

/-- The request dict built by `fetch_search_console_data`: the two dates,
a single grouping dimension, and the fixed `rowLimit` of 1000. -/
def mkRequest (start_date end_date dimension : String) : GSCRequest :=
  { startDate := start_date, endDate := end_date,
    dimensions := [dimension], rowLimit := 1000 }

/-- `fetch_search_console_data(start_date, end_date, domain, service, dimension)`.
The service handle maps a site URL and a request body to an exception or a
raw row list. Returns the emitted `st.error` messages and the metric rows:
on any failure (service exception, or a malformed row whose subscript would
raise inside the `try`) an error is reported and the row list is empty. -/
def fetch_search_console_data (start_date end_date domain : String)
    (service : String → GSCRequest → Except String (List GSCRow))
    (dimension : String) : List String × List MetricRow :=
  let request : GSCRequest := mkRequest start_date end_date dimension
  match service domain request with
  | .error e => (["Error fetching data: " ++ e], [])
  | .ok data =>
    match mapRows data with
    | some rows => ([], rows)
    | none => (["Error fetching data: malformed row"], [])

/-- Inputs of one Streamlit rerun of the module-level script: whether a JSON
credential file was uploaded and whether building the client from it
succeeded (and the exception text when it did not), the service handle, the
domain, the four picked dates (as integer day ordinals) and whether
`Fetch Insights` was pressed. -/
structure UIConfig where
  uploaded : Bool
  authOk : Bool
  authErr : String
  service : String → GSCRequest → Except String (List GSCRow)
  domain : String
  prev_week_start : Int
  prev_week_end : Int
  curr_week_start : Int
  curr_week_end : Int
  buttonPressed : Bool

/-- `search_console_service` is not `None` exactly when a file was uploaded
and building the client succeeded (lines 68-82). -/
def UIConfig.serviceOk (cfg : UIConfig) : Bool :=
  cfg.uploaded && cfg.authOk

/-- The credential block (lines 67-82): success, failure or
upload-prompt sidebar message, emitted before everything else. -/
def authMessages (cfg : UIConfig) : List String :=
  if cfg.uploaded then
    if cfg.authOk then ["Authentication successful!"]
    else ["Authentication failed: " ++ cfg.authErr]
  else ["Upload your JSON file to proceed."]

/-- Observable outcome of one rerun: the error/warning/info messages in
emission order, how many fetches were attempted, and the comparison outputs
when the comparison ran. -/
structure UIResult where
  messages : List String
  fetchCalls : Nat
  output : Option (List CombinedRow × List CombinedRow)

/-- The date-validation block (lines 96-100): each invalid range emits a
sidebar error, and nothing else happens there. -/
def dateErrors (cfg : UIConfig) : List String :=
  (if cfg.prev_week_start ≥ cfg.prev_week_end then
    ["Previous Week Start Date must be earlier than End Date."] else []) ++
  (if cfg.curr_week_start ≥ cfg.curr_week_end then
    ["Current Week Start Date must be earlier than End Date."] else [])

/-- The script's `old_data` variable: the baseline-period fetch. -/
def old_data (cfg : UIConfig) : List String × List MetricRow :=
  fetch_search_console_data (toString cfg.prev_week_start)
    (toString cfg.prev_week_end) cfg.domain cfg.service "page"

/-- The script's `new_data` variable: the current-period fetch. -/
def new_data (cfg : UIConfig) : List String × List MetricRow :=
  fetch_search_console_data (toString cfg.curr_week_start)
    (toString cfg.curr_week_end) cfg.domain cfg.service "page"

/-- One rerun of the module-level script: credential block, date validation,
then the `Fetch Insights` handler, which fetches both ranges and either
warns (when `old_data.empty or new_data.empty`) or runs
`identify_top_pages`. -/
def run_ui (cfg : UIConfig) : UIResult :=
  let sidebar := authMessages cfg ++ dateErrors cfg
  if cfg.buttonPressed then
    if cfg.serviceOk then
      if (old_data cfg).2.isEmpty || (new_data cfg).2.isEmpty then
        { messages := sidebar ++ ["Fetching data..."] ++ (old_data cfg).1 ++ (new_data cfg).1 ++
            ["No data available for the specified dates and domain."],
          fetchCalls := 2, output := none }
      else
        { messages := sidebar ++ ["Fetching data..."] ++ (old_data cfg).1 ++ (new_data cfg).1,
          fetchCalls := 2,
          output := some (identify_top_pages (old_data cfg).2 (new_data cfg).2) }
    else
      { messages := sidebar ++ ["Please upload a valid Service Account JSON file."],
        fetchCalls := 0, output := none }
  else
    { messages := sidebar, fetchCalls := 0, output := none }

/-! ### Demo inputs (the scenario of spec section 8) -/

/-- Baseline table of the section-8 scenario. -/
def demoBaseline : List MetricRow := [{ page := "/a", clicks := 10, position := 5 }]

/-- Current table of the section-8 scenario. -/
def demoCurrent : List MetricRow :=
  [{ page := "/a", clicks := 20, position := 3 }, { page := "/b", clicks := 5, position := 8 }]

/-! ### Helper lemmas about the stable top-k selection -/

lemma ascLe_trans : ∀ a b c : CombinedRow,
    decide (a.clickChange ≤ b.clickChange) = true →
    decide (b.clickChange ≤ c.clickChange) = true →
    decide (a.clickChange ≤ c.clickChange) = true := by
  intro a b c hab hbc
  simp only [decide_eq_true_eq] at *
  omega

lemma ascLe_total : ∀ a b : CombinedRow,
    (decide (a.clickChange ≤ b.clickChange) || decide (b.clickChange ≤ a.clickChange)) = true := by
  intro a b
  simp only [Bool.or_eq_true, decide_eq_true_eq]
  omega

lemma descLe_trans : ∀ a b c : CombinedRow,
    decide (b.clickChange ≤ a.clickChange) = true →
    decide (c.clickChange ≤ b.clickChange) = true →
    decide (c.clickChange ≤ a.clickChange) = true := by
  intro a b c hab hbc
  simp only [decide_eq_true_eq] at *
  omega

lemma descLe_total : ∀ a b : CombinedRow,
    (decide (b.clickChange ≤ a.clickChange) || decide (a.clickChange ≤ b.clickChange)) = true := by
  intro a b
  simp only [Bool.or_eq_true, decide_eq_true_eq]
  omega

lemma nsmallest_sorted (k : Nat) (l : List CombinedRow) :
    (nsmallestClicks k l).Pairwise (fun a b => a.clickChange ≤ b.clickChange) := by
  have h := List.sorted_mergeSort ascLe_trans ascLe_total l
  have h2 : (l.mergeSort fun a b => decide (a.clickChange ≤ b.clickChange)).Pairwise
      (fun a b => a.clickChange ≤ b.clickChange) :=
    h.imp (fun hab => of_decide_eq_true hab)
  exact h2.sublist (List.take_sublist k _)

lemma nlargest_sorted (k : Nat) (l : List CombinedRow) :
    (nlargestClicks k l).Pairwise (fun a b => b.clickChange ≤ a.clickChange) := by
  have h := List.sorted_mergeSort descLe_trans descLe_total l
  have h2 : (l.mergeSort fun a b => decide (b.clickChange ≤ a.clickChange)).Pairwise
      (fun a b => b.clickChange ≤ a.clickChange) :=
    h.imp (fun hab => of_decide_eq_true hab)
  exact h2.sublist (List.take_sublist k _)

lemma nsmallest_length (k : Nat) (l : List CombinedRow) :
    (nsmallestClicks k l).length = min k l.length := by
  unfold nsmallestClicks
  rw [List.length_take, (List.mergeSort_perm l _).length_eq]

lemma nlargest_length (k : Nat) (l : List CombinedRow) :
    (nlargestClicks k l).length = min k l.length := by
  unfold nlargestClicks
  rw [List.length_take, (List.mergeSort_perm l _).length_eq]

lemma nsmallest_extremal (k : Nat) (l : List CombinedRow) :
    ∃ rest, l.Perm (nsmallestClicks k l ++ rest) ∧
      ∀ x ∈ nsmallestClicks k l, ∀ y ∈ rest, x.clickChange ≤ y.clickChange := by
  refine ⟨(l.mergeSort fun a b => decide (a.clickChange ≤ b.clickChange)).drop k, ?_, ?_⟩
  · have hsplit := List.take_append_drop k
      (l.mergeSort fun a b => decide (a.clickChange ≤ b.clickChange))
    unfold nsmallestClicks
    rw [hsplit]
    exact (List.mergeSort_perm l _).symm
  · have h := List.sorted_mergeSort ascLe_trans ascLe_total l
    rw [← List.take_append_drop k
      (l.mergeSort fun a b => decide (a.clickChange ≤ b.clickChange))] at h
    rcases List.pairwise_append.mp h with ⟨-, -, h3⟩
    intro x hx y hy
    exact of_decide_eq_true (h3 x hx y hy)

lemma combinedTable_nil_right (df_old : List MetricRow) :
    combinedTable df_old [] = df_old.map (fun o =>
      { page := o.page, clicksOld := o.clicks, clicksNew := 0,
        positionOld := o.position, positionNew := 0,
        clickChange := 0 - o.clicks, posChange := 0 - o.position }) := by
  induction df_old with
  | nil => rfl
  | cons o l ih =>
    simp only [combinedTable, mergeOuter, List.filter_nil, List.append_nil,
      List.map_nil, List.flatMap_cons, List.map_append, List.map_cons] at ih ⊢
    simpa [leftOnly, addChanges] using ih

lemma combinedTable_nil_left (df_new : List MetricRow) :
    combinedTable [] df_new = df_new.map (fun n =>
      { page := n.page, clicksOld := 0, clicksNew := n.clicks,
        positionOld := 0, positionNew := n.position,
        clickChange := n.clicks - 0, posChange := n.position - 0 }) := by
  unfold combinedTable mergeOuter
  simp [rightOnly, addChanges]

/-- C2: the comparator is total on well-formed input; with an empty side the
join produces the non-empty side with the missing side's fields zero-filled;
with non-empty baseline, empty current and positive baseline clicks, every
combined row has negative click change, and `top_dropped` is the at-most-8
most negative rows of the combined table. -/
theorem comparator_empty_side_total (df_old df_new : List MetricRow) :
    combinedTable df_old [] = df_old.map (fun o =>
      { page := o.page, clicksOld := o.clicks, clicksNew := 0,
        positionOld := o.position, positionNew := 0,
        clickChange := 0 - o.clicks, posChange := 0 - o.position }) ∧
    combinedTable [] df_new = df_new.map (fun n =>
      { page := n.page, clicksOld := 0, clicksNew := n.clicks,
        positionOld := 0, positionNew := n.position,
        clickChange := n.clicks - 0, posChange := n.position - 0 }) ∧
    ((∀ o ∈ df_old, 0 < o.clicks) → ∀ r ∈ combinedTable df_old [], r.clickChange < 0) ∧
    (∃ rest, (combinedTable df_old []).Perm ((identify_top_pages df_old []).2 ++ rest) ∧
      (identify_top_pages df_old []).2.length = min 8 (combinedTable df_old []).length ∧
      ∀ x ∈ (identify_top_pages df_old []).2, ∀ y ∈ rest, x.clickChange ≤ y.clickChange) := by
  refine ⟨combinedTable_nil_right df_old, combinedTable_nil_left df_new, ?_, ?_⟩
  · intro hpos r hr
    rw [combinedTable_nil_right] at hr
    obtain ⟨o, ho, rfl⟩ := List.mem_map.mp hr
    have h0 := hpos o ho
    show 0 - o.clicks < 0
    omega
  · obtain ⟨rest, hperm, hext⟩ := nsmallest_extremal 8 (combinedTable df_old [])
    exact ⟨rest, hperm, nsmallest_length 8 _, hext⟩

/-- Witness for C2 at the concrete demo baseline. -/
theorem comparator_empty_side_total_witness :
    combinedTable demoBaseline [] =
      [{ page := "/a", clicksOld := 10, clicksNew := 0, positionOld := 5, positionNew := 0,
         clickChange := -10, posChange := -5 }] ∧
    ({ page := "/a", clicksOld := 10, clicksNew := 0, positionOld := 5, positionNew := 0,
       clickChange := -10, posChange := -5 } : CombinedRow).clickChange < 0 := by
  have h := comparator_empty_side_total demoBaseline []
  have htab : combinedTable demoBaseline [] =
      [{ page := "/a", clicksOld := 10, clicksNew := 0, positionOld := 5, positionNew := 0,
         clickChange := -10, posChange := -5 }] := by
    rw [h.1]; simp [demoBaseline]
  exact ⟨htab, h.2.2.1
    (by intro o ho; simp [demoBaseline] at ho; subst ho; norm_num) _ (by rw [htab]; simp)⟩

/-- C3: each ranked set is sorted by click change (descending for
`top_improved`, ascending for `top_dropped`) and has length
`min 8 |combined|`, with no padding when fewer than 8 rows exist. -/
theorem ranked_sets_sorted_and_sized (df_old df_new : List MetricRow) :
    (identify_top_pages df_old df_new).1.Pairwise (fun a b => b.clickChange ≤ a.clickChange) ∧
    (identify_top_pages df_old df_new).2.Pairwise (fun a b => a.clickChange ≤ b.clickChange) ∧
    (identify_top_pages df_old df_new).1.length = min 8 (combinedTable df_old df_new).length ∧
    (identify_top_pages df_old df_new).2.length = min 8 (combinedTable df_old df_new).length :=
  ⟨nlargest_sorted 8 _, nsmallest_sorted 8 _, nlargest_length 8 _, nsmallest_length 8 _⟩

/-- C6: the delta columns of every combined row are exactly the differences
of the stored click and position columns. -/
theorem combined_deltas_exact (df_old df_new : List MetricRow) (r : CombinedRow)
    (hr : r ∈ combinedTable df_old df_new) :
    r.clickChange = r.clicksNew - r.clicksOld ∧
    r.posChange = r.positionNew - r.positionOld := by
  obtain ⟨m, hm, rfl⟩ := List.mem_map.mp hr
  exact ⟨rfl, rfl⟩

/-- Demo combined row for the witness of C6 (the `/a` row of the section-8
scenario). -/
def demoRowA : CombinedRow :=
  { page := "/a", clicksOld := 10, clicksNew := 20, positionOld := 5, positionNew := 3,
    clickChange := 10, posChange := -2 }

/-- Witness for C6 at a concrete combined row. -/
theorem combined_deltas_exact_witness :
    demoRowA.clickChange = demoRowA.clicksNew - demoRowA.clicksOld ∧
    demoRowA.posChange = demoRowA.positionNew - demoRowA.positionOld := by
  refine combined_deltas_exact demoBaseline demoCurrent demoRowA ?_
  simp [combinedTable, mergeOuter, demoBaseline, demoCurrent, combineBoth, addChanges, demoRowA]
  norm_num

/-- C7: the comparator is a pure function of its two input tables: repeated
application to identical inputs yields identical combined tables, ranked
sets and insights. -/
theorem compare_deterministic (df_old df_new : List MetricRow) :
    identify_top_pages df_old df_new = identify_top_pages df_old df_new ∧
    combinedTable df_old df_new = combinedTable df_old df_new ∧
    generate_page_insights (identify_top_pages df_old df_new).1 true =
      generate_page_insights (identify_top_pages df_old df_new).1 true :=
  ⟨rfl, rfl, rfl⟩

/-- C5: the insight classification applies the branch conditions in source
order with first match winning, for improved and dropped rows alike; on the
section-8 scenario the improved list classifies `/a` as position-improved
and `/b` as newly ranking. -/
theorem insight_rules_first_match (row : CombinedRow) :
    (row.clicksOld = 0 ∧ row.clickChange > 0 →
      rowInsight row true = .newlyRanking row.page row.clickChange row.positionNew) ∧
    (¬(row.clicksOld = 0 ∧ row.clickChange > 0) →
      row.clickChange > 0 ∧ row.posChange < 0 →
      rowInsight row true =
        .positionImproved row.page row.clickChange row.positionOld row.positionNew) ∧
    (¬(row.clicksOld = 0 ∧ row.clickChange > 0) →
      ¬(row.clickChange > 0 ∧ row.posChange < 0) →
      rowInsight row true = .fluctuation row.page row.clickChange) ∧
    (row.clickChange < 0 ∧ row.posChange > 0 →
      rowInsight row false =
        .positionDecreased row.page row.clickChange row.positionOld row.positionNew) ∧
    (¬(row.clickChange < 0 ∧ row.posChange > 0) →
      rowInsight row false = .fluctuation row.page row.clickChange) ∧
    generate_page_insights (identify_top_pages demoBaseline demoCurrent).1 true =
      [.positionImproved "/a" 10 5 3, .newlyRanking "/b" 5 8] := by
  refine ⟨?_, ?_, ?_, ?_, ?_, ?_⟩
  · intro h; simp [rowInsight, h]
  · intro h1 h2
    have h0 : ¬row.clicksOld = 0 := fun h0 => h1 ⟨h0, h2.1⟩
    simp [rowInsight, h0, h2]
  · intro h1 h2; simp [rowInsight, h1, h2]
  · intro h; simp [rowInsight, h]
  · intro h; simp [rowInsight, h]
  · simp [generate_page_insights, identify_top_pages, combinedTable, mergeOuter, demoBaseline,
      demoCurrent, combineBoth, leftOnly, rightOnly, addChanges, nlargestClicks,
      nsmallestClicks, List.mergeSort, List.filter, rowInsight]
    norm_num

/-- Demo combined row for the witnesses of C5 and C10 (the `/b` row of the
section-8 scenario). -/
def demoRowB : CombinedRow :=
  { page := "/b", clicksOld := 0, clicksNew := 5, positionOld := 0, positionNew := 8,
    clickChange := 5, posChange := 8 }

/-- Witness for C5: the two scenario rows, classified concretely. -/
theorem insight_rules_first_match_witness :
    rowInsight demoRowB true = .newlyRanking "/b" 5 8 ∧
    rowInsight demoRowA true = .positionImproved "/a" 10 5 3 := by
  have h1 := insight_rules_first_match demoRowB
  have h2 := insight_rules_first_match demoRowA
  refine ⟨by simpa [demoRowB] using h1.1 ⟨rfl, by norm_num [demoRowB]⟩, ?_⟩
  have := h2.2.1 (by simp [demoRowA]) ⟨by norm_num [demoRowA], by norm_num [demoRowA]⟩
  simpa [demoRowA] using this

/-- C10: both ranked sets are drawn from the same combined table, so when it
has at most 8 rows they are permutations of each other; a row with positive
click change landing in `top_dropped` is classified by the drop generator as
the generic fluctuation message, whose click count renders with a leading
`+`. -/
theorem small_table_ranked_sets_coincide (df_old df_new : List MetricRow)
    (hsmall : (combinedTable df_old df_new).length ≤ 8) :
    (identify_top_pages df_old df_new).1.Perm (identify_top_pages df_old df_new).2 ∧
    (∀ row : CombinedRow, 0 < row.clickChange →
      rowInsight row false = .fluctuation row.page row.clickChange ∧
      signedIntStr row.clickChange = "+" ++ toString row.clickChange) := by
  constructor
  · have h1 : (identify_top_pages df_old df_new).1 =
        (combinedTable df_old df_new).mergeSort
          (fun a b => decide (b.clickChange ≤ a.clickChange)) := by
      show nlargestClicks 8 _ = _
      unfold nlargestClicks
      apply List.take_of_length_le
      rw [(List.mergeSort_perm _ _).length_eq]
      exact hsmall
    have h2 : (identify_top_pages df_old df_new).2 =
        (combinedTable df_old df_new).mergeSort
          (fun a b => decide (a.clickChange ≤ b.clickChange)) := by
      show nsmallestClicks 8 _ = _
      unfold nsmallestClicks
      apply List.take_of_length_le
      rw [(List.mergeSort_perm _ _).length_eq]
      exact hsmall
    rw [h1, h2]
    exact (List.mergeSort_perm _ _).trans (List.mergeSort_perm _ _).symm
  · intro row hpos
    constructor
    · have hneg : ¬(row.clickChange < 0 ∧ row.posChange > 0) := by
        intro hc
        exact absurd (hpos.trans hc.1) (lt_irrefl 0)
      simp [rowInsight, hneg]
    · unfold signedIntStr
      rw [if_pos (le_of_lt hpos)]

/-- Witness for C10: on the two-row scenario the ranked sets coincide, and
the `/a` drop row with click change `+10` is a fluctuation insight. -/
theorem small_table_ranked_sets_coincide_witness :
    (identify_top_pages demoBaseline demoCurrent).1.Perm
      (identify_top_pages demoBaseline demoCurrent).2 ∧
    rowInsight demoRowA false = .fluctuation "/a" 10 ∧
    signedIntStr 10 = "+" ++ toString (10 : Int) := by
  have h := small_table_ranked_sets_coincide demoBaseline demoCurrent
    (by simp [combinedTable, mergeOuter, demoBaseline, demoCurrent])
  have hrow := h.2 demoRowA (by norm_num [demoRowA])
  exact ⟨h.1, by simpa [demoRowA] using hrow.1, by simpa [demoRowA] using hrow.2⟩

lemma mapRows_length : ∀ {l : List GSCRow} {ms : List MetricRow},
    mapRows l = some ms → ms.length = l.length := by
  intro l
  induction l with
  | nil => intro ms h; cases h; rfl
  | cons r rs ih =>
    intro ms h
    unfold mapRows at h
    cases hr : rowToMetric r with
    | none => simp [hr] at h
    | some m =>
      cases hrs : mapRows rs with
      | none => simp [hr, hrs] at h
      | some ms2 =>
        simp [hr, hrs] at h
        simp [← h, List.length_cons, ih hrs]

/-- C8: on any upstream failure the fetch reports the error and returns an
empty row list (likewise when a malformed row raises inside the `try`);
on success, when the service honors the requested `rowLimit` of 1000, at
most 1000 metric rows are returned. -/
theorem fetch_failure_empty_and_bounded (start_date end_date domain dimension : String)
    (service : String → GSCRequest → Except String (List GSCRow)) :
    (∀ e, service domain (mkRequest start_date end_date dimension) = .error e →
      fetch_search_console_data start_date end_date domain service dimension =
        (["Error fetching data: " ++ e], [])) ∧
    (∀ data, service domain (mkRequest start_date end_date dimension) = .ok data →
      mapRows data = none →
      (fetch_search_console_data start_date end_date domain service dimension).2 = [] ∧
      (fetch_search_console_data start_date end_date domain service dimension).1 ≠ []) ∧
    (∀ data, service domain (mkRequest start_date end_date dimension) = .ok data →
      data.length ≤ (mkRequest start_date end_date dimension).rowLimit →
      (fetch_search_console_data start_date end_date domain service dimension).2.length ≤ 1000) := by
  refine ⟨?_, ?_, ?_⟩
  · intro e he
    simp [fetch_search_console_data, he]
  · intro data hd hm
    simp [fetch_search_console_data, hd, hm]
  · intro data hd hlen
    simp only [fetch_search_console_data, hd]
    cases hm : mapRows data with
    | none => simp
    | some ms =>
      simp only [mkRequest] at hlen
      simpa [mapRows_length hm] using hlen

/-- Demo service for the witness of C8: always raises. -/
def demoServiceErr : String → GSCRequest → Except String (List GSCRow) :=
  fun _ _ => .error "boom"

/-- Demo service for the witness of C8: one well-formed row. -/
def demoServiceOk : String → GSCRequest → Except String (List GSCRow) :=
  fun _ _ => .ok [{ keys := ["/a"], clicks := some 5, position := some 1 }]

/-- Witness for C8 at concrete services. -/
theorem fetch_failure_empty_and_bounded_witness :
    fetch_search_console_data "2024-01-01" "2024-01-07" "https://www.example.com/"
      demoServiceErr "page" = (["Error fetching data: " ++ "boom"], []) ∧
    (fetch_search_console_data "2024-01-01" "2024-01-07" "https://www.example.com/"
      demoServiceOk "page").2.length ≤ 1000 := by
  have h1 := fetch_failure_empty_and_bounded "2024-01-01" "2024-01-07"
    "https://www.example.com/" "page" demoServiceErr
  have h2 := fetch_failure_empty_and_bounded "2024-01-01" "2024-01-07"
    "https://www.example.com/" "page" demoServiceOk
  exact ⟨h1.1 "boom" rfl, h2.2.2 _ rfl (by norm_num [mkRequest])⟩

lemma sum_map_one {α : Type} (l : List α) : (l.map fun _ => (1 : Nat)).sum = l.length := by
  induction l with
  | nil => rfl
  | cons a l ih => simp [ih, Nat.add_comm]

lemma filter_page_len_le_one (df_new : List MetricRow)
    (hnew : (df_new.map MetricRow.page).Nodup) (p : String) :
    (df_new.filter fun n => n.page == p).length ≤ 1 := by
  induction df_new with
  | nil => simp
  | cons n l ih =>
    rw [List.map_cons, List.nodup_cons] at hnew
    by_cases h : n.page = p
    · have hnil : (l.filter fun m => m.page == p) = [] := by
        apply List.filter_eq_nil_iff.mpr
        intro m hm
        simp only [beq_iff_eq]
        intro hmp
        exact hnew.1 (List.mem_map.mpr ⟨m, hm, by rw [hmp, h]⟩)
      simp [List.filter_cons, h, hnil]
    · simp only [List.filter_cons, beq_iff_eq, h]
      simpa using ih hnew.2

lemma mergeOuter_left_length (df_old df_new : List MetricRow)
    (hnew : (df_new.map MetricRow.page).Nodup) :
    (df_old.flatMap fun o =>
      match df_new.filter (fun n => n.page == o.page) with
      | [] => [leftOnly o]
      | ms => ms.map (combineBoth o)).length = df_old.length := by
  rw [List.length_flatMap]
  rw [List.map_congr_left (g := fun _ => (1 : Nat)) ?_, sum_map_one]
  intro o _
  have h := filter_page_len_le_one df_new hnew o.page
  simp only [Function.comp]
  cases hf : df_new.filter (fun n => n.page == o.page) with
  | nil => simp
  | cons m ms =>
    rw [hf] at h
    simp only [List.length_cons] at h
    have hms : ms = [] := List.eq_nil_of_length_eq_zero (by omega)
    simp [hms]

lemma all_pages_ne_eq (df_old : List MetricRow) (p : String) :
    (df_old.all fun o => !(o.page == p)) =
      decide (p ∉ df_old.map MetricRow.page) := by
  rw [Bool.eq_iff_iff]
  simp only [List.all_eq_true, Bool.not_eq_eq_eq_not, Bool.not_true, beq_eq_false_iff_ne,
    decide_eq_true_eq, List.mem_map]
  constructor
  · rintro h ⟨o, ho, hop⟩
    exact h o ho hop
  · intro h o ho hop
    exact h ⟨o, ho, hop⟩

/-- C4: with unique pages per input table, the combined table has one row per
page in the union of the two page sets, and a row whose page is missing from
one input has that side's clicks and position zero-filled. -/
theorem combined_row_count_union (df_old df_new : List MetricRow)
    (hold : (df_old.map MetricRow.page).Nodup)
    (hnew : (df_new.map MetricRow.page).Nodup) :
    (combinedTable df_old df_new).length =
      ((df_old.map MetricRow.page).toFinset ∪ (df_new.map MetricRow.page).toFinset).card ∧
    ∀ r ∈ combinedTable df_old df_new,
      (r.page ∉ df_old.map MetricRow.page → r.clicksOld = 0 ∧ r.positionOld = 0) ∧
      (r.page ∉ df_new.map MetricRow.page → r.clicksNew = 0 ∧ r.positionNew = 0) := by
  constructor
  · have hq : (df_new.filter fun n => df_old.all fun o => !(o.page == n.page)) =
        df_new.filter fun n => decide (n.page ∉ df_old.map MetricRow.page) :=
      List.filter_congr (fun n _ => all_pages_ne_eq df_old n.page)
    have hfm : ((df_new.map MetricRow.page).filter
          fun p => decide (p ∉ df_old.map MetricRow.page)) =
        (df_new.filter fun n => decide (n.page ∉ df_old.map MetricRow.page)).map
          MetricRow.page := by
      rw [List.filter_map]
      rfl
    have hnodupB : ((df_new.map MetricRow.page).filter
        fun p => decide (p ∉ df_old.map MetricRow.page)).Nodup := hnew.filter _
    have hcardA : (df_old.map MetricRow.page).toFinset.card = df_old.length := by
      rw [List.toFinset_card_of_nodup hold, List.length_map]
    have hBA : (df_new.map MetricRow.page).toFinset \ (df_old.map MetricRow.page).toFinset =
        ((df_new.map MetricRow.page).filter
          fun p => decide (p ∉ df_old.map MetricRow.page)).toFinset := by
      rw [List.toFinset_filter, Finset.sdiff_eq_filter]
      apply Finset.filter_congr
      intro x hx
      simp
    have hcardBA : ((df_new.map MetricRow.page).toFinset \
          (df_old.map MetricRow.page).toFinset).card =
        (df_new.filter fun n => decide (n.page ∉ df_old.map MetricRow.page)).length := by
      rw [hBA, List.toFinset_card_of_nodup hnodupB, hfm, List.length_map]
    calc (combinedTable df_old df_new).length
        = (mergeOuter df_old df_new).length := by
          unfold combinedTable; rw [List.length_map]
      _ = df_old.length +
          (df_new.filter fun n => df_old.all fun o => !(o.page == n.page)).length := by
          unfold mergeOuter
          rw [List.length_append, mergeOuter_left_length df_old df_new hnew, List.length_map]
      _ = (df_old.map MetricRow.page).toFinset.card +
          ((df_new.map MetricRow.page).toFinset \ (df_old.map MetricRow.page).toFinset).card := by
          rw [hcardA, hq, ← hcardBA]
      _ = ((df_old.map MetricRow.page).toFinset ∪ (df_new.map MetricRow.page).toFinset).card := by
          rw [← Finset.card_union_of_disjoint Finset.disjoint_sdiff,
            Finset.union_sdiff_self_eq_union]
  · intro r hr
    obtain ⟨m, hm, rfl⟩ := List.mem_map.mp hr
    rcases List.mem_append.mp hm with hL | hR
    · obtain ⟨o, ho, hmo⟩ := List.mem_flatMap.mp hL
      cases hf : df_new.filter (fun n => n.page == o.page) with
      | nil =>
        rw [hf] at hmo
        simp only [List.mem_singleton] at hmo
        subst hmo
        constructor
        · intro hnot
          exact absurd (List.mem_map.mpr ⟨o, ho, rfl⟩) hnot
        · intro _
          exact ⟨rfl, rfl⟩
      | cons n ns =>
        rw [hf] at hmo
        obtain ⟨x, hx, rfl⟩ := List.mem_map.mp hmo
        have hxf : x ∈ df_new.filter (fun n => n.page == o.page) := by rw [hf]; exact hx
        have hxmem := (List.mem_filter.mp hxf).1
        have hxpage : x.page = o.page := by
          have := (List.mem_filter.mp hxf).2
          exact beq_iff_eq.mp this
        constructor
        · intro hnot
          exact absurd (List.mem_map.mpr ⟨o, ho, rfl⟩) hnot
        · intro hnot
          exact absurd (List.mem_map.mpr ⟨x, hxmem, hxpage⟩) hnot
    · obtain ⟨n, hn, rfl⟩ := List.mem_map.mp hR
      constructor
      · intro _
        exact ⟨rfl, rfl⟩
      · intro hnot
        exact absurd (List.mem_map.mpr ⟨n, (List.mem_filter.mp hn).1, rfl⟩) hnot

/-- Witness for C4 at the section-8 scenario inputs. -/
theorem combined_row_count_union_witness :
    (combinedTable demoBaseline demoCurrent).length =
      ((demoBaseline.map MetricRow.page).toFinset ∪
        (demoCurrent.map MetricRow.page).toFinset).card ∧
    demoRowB.clicksOld = 0 ∧ demoRowB.positionOld = 0 := by
  have h := combined_row_count_union demoBaseline demoCurrent
    (by simp [demoBaseline]) (by simp [demoCurrent])
  refine ⟨h.1, ?_⟩
  have hmem : demoRowB ∈ combinedTable demoBaseline demoCurrent := by
    simp [combinedTable, mergeOuter, demoBaseline, demoCurrent, combineBoth, rightOnly,
      addChanges, demoRowB]
  exact (h.2 demoRowB hmem).1 (by simp [demoRowB, demoBaseline])

/-- A demo service that returns one row for the baseline range (start date
rendered as `"0"`) and no rows otherwise. -/
def svcSplit : String → GSCRequest → Except String (List GSCRow) :=
  fun _ req =>
    if req.startDate = "0" then .ok [{ keys := ["/a"], clicks := some 5, position := some 1 }]
    else .ok []

/-- A rerun configuration with valid dates whose baseline fetch is non-empty
and whose current fetch is empty. -/
def cfgOneEmpty : UIConfig :=
  { uploaded := true, authOk := true, authErr := "",
    service := svcSplit, domain := "https://www.example.com/",
    prev_week_start := 0, prev_week_end := 1, curr_week_start := 2, curr_week_end := 3,
    buttonPressed := true }

/-- Counterexample to C1: with a non-empty baseline table and an empty
current table the handler still warns and skips the comparison — the skip
condition is `old_data.empty or new_data.empty`, not "both empty". -/
theorem both_empty_skip_counterexample :
    (old_data cfgOneEmpty).2 ≠ [] ∧
    (new_data cfgOneEmpty).2 = [] ∧
    (run_ui cfgOneEmpty).output = none ∧
    "No data available for the specified dates and domain." ∈ (run_ui cfgOneEmpty).messages := by
  refine ⟨by decide, by decide, rfl, ?_⟩
  have hm : (run_ui cfgOneEmpty).messages =
      ["Authentication successful!", "Fetching data...",
        "No data available for the specified dates and domain."] := rfl
  rw [hm]
  simp

/-- C1 amended: the handler skips the comparison and warns exactly when at
least one fetched table is empty; the comparison runs only when both tables
are non-empty. -/
theorem warn_iff_either_empty (cfg : UIConfig)
    (hb : cfg.buttonPressed = true) (hs : cfg.serviceOk = true) :
    (((run_ui cfg).output = none ∧
        "No data available for the specified dates and domain." ∈ (run_ui cfg).messages) ↔
      ((old_data cfg).2 = [] ∨ (new_data cfg).2 = [])) ∧
    ((old_data cfg).2 ≠ [] → (new_data cfg).2 ≠ [] →
      (run_ui cfg).output = some (identify_top_pages (old_data cfg).2 (new_data cfg).2)) := by
  have hsome : (old_data cfg).2 ≠ [] → (new_data cfg).2 ≠ [] →
      (run_ui cfg).output = some (identify_top_pages (old_data cfg).2 (new_data cfg).2) := by
    intro h1 h2
    have hcond : ((old_data cfg).2.isEmpty || (new_data cfg).2.isEmpty) = false := by
      simp [List.isEmpty_iff, h1, h2]
    simp [run_ui, hb, hs, hcond]
  refine ⟨⟨?_, ?_⟩, hsome⟩
  · rintro ⟨hnone, -⟩
    by_contra hcon
    push_neg at hcon
    rw [hsome hcon.1 hcon.2] at hnone
    exact Option.some_ne_none _ hnone
  · intro hor
    have hcond : ((old_data cfg).2.isEmpty || (new_data cfg).2.isEmpty) = true := by
      rcases hor with h | h <;> simp [List.isEmpty_iff, h]
    constructor
    · simp [run_ui, hb, hs, hcond]
    · simp [run_ui, hb, hs, hcond]

/-- Witness for the amended C1 at the concrete one-empty-side configuration. -/
theorem warn_iff_either_empty_witness :
    (run_ui cfgOneEmpty).output = none ∧
    "No data available for the specified dates and domain." ∈ (run_ui cfgOneEmpty).messages := by
  have h := warn_iff_either_empty cfgOneEmpty rfl rfl
  exact h.1.mpr (Or.inr (by decide))

/-- A demo service that always returns one well-formed row. -/
def svcAll : String → GSCRequest → Except String (List GSCRow) :=
  fun _ _ => .ok [{ keys := ["/a"], clicks := some 5, position := some 1 }]

/-- A rerun configuration whose baseline date range is invalid (start after
end) with the button pressed and a valid service. -/
def cfgBadDates : UIConfig :=
  { uploaded := true, authOk := true, authErr := "",
    service := svcAll, domain := "https://www.example.com/",
    prev_week_start := 5, prev_week_end := 3, curr_week_start := 0, curr_week_end := 1,
    buttonPressed := true }

/-- Counterexample to C9: with an invalid baseline range the error is shown,
yet both fetches are still attempted and the comparison still runs — the
validation is not terminal to the cycle. -/
theorem date_validation_counterexample :
    cfgBadDates.prev_week_start ≥ cfgBadDates.prev_week_end ∧
    "Previous Week Start Date must be earlier than End Date." ∈ (run_ui cfgBadDates).messages ∧
    (run_ui cfgBadDates).fetchCalls = 2 ∧
    (run_ui cfgBadDates).output ≠ none := by
  refine ⟨by norm_num [cfgBadDates], ?_, rfl, ?_⟩
  · have hm : (run_ui cfgBadDates).messages =
        ["Authentication successful!",
          "Previous Week Start Date must be earlier than End Date.", "Fetching data..."] := rfl
    rw [hm]
    simp
  · have ho : (run_ui cfgBadDates).output =
        some (identify_top_pages (old_data cfgBadDates).2 (new_data cfgBadDates).2) := rfl
    rw [ho]
    simp

/-- C9 amended: when either date range has start not strictly before end,
the corresponding validation error is emitted in the validation block, which
precedes every handler message — in particular it is reported before any
fetch activity; but the failure is not terminal: the fetch count is exactly
what it is with valid dates, and with the button pressed, a valid service
and two non-empty tables the comparison still runs. -/
theorem date_validation_reported_not_terminal (cfg : UIConfig)
    (h : cfg.prev_week_start ≥ cfg.prev_week_end ∨
      cfg.curr_week_start ≥ cfg.curr_week_end) :
    (cfg.prev_week_start ≥ cfg.prev_week_end →
      "Previous Week Start Date must be earlier than End Date." ∈ dateErrors cfg) ∧
    (cfg.curr_week_start ≥ cfg.curr_week_end →
      "Current Week Start Date must be earlier than End Date." ∈ dateErrors cfg) ∧
    dateErrors cfg ≠ [] ∧
    (∃ handler, (run_ui cfg).messages = authMessages cfg ++ dateErrors cfg ++ handler) ∧
    (run_ui cfg).fetchCalls = (if cfg.buttonPressed ∧ cfg.serviceOk then 2 else 0) ∧
    (cfg.buttonPressed = true → cfg.serviceOk = true →
      (old_data cfg).2 ≠ [] → (new_data cfg).2 ≠ [] →
      (run_ui cfg).output = some (identify_top_pages (old_data cfg).2 (new_data cfg).2)) := by
  refine ⟨fun hp => by simp [dateErrors, hp], fun hc => by simp [dateErrors, hc],
    ?_, ?_, ?_, ?_⟩
  · rcases h with hp | hc
    · simp [dateErrors, hp]
    · simp [dateErrors, hc, List.append_eq_nil]
  · cases hb : cfg.buttonPressed with
    | false => exact ⟨[], by simp [run_ui, hb]⟩
    | true =>
      cases hs : cfg.serviceOk with
      | false =>
        exact ⟨["Please upload a valid Service Account JSON file."],
          by simp [run_ui, hb, hs]⟩
      | true =>
        by_cases hcond : ((old_data cfg).2.isEmpty || (new_data cfg).2.isEmpty) = true
        · exact ⟨["Fetching data..."] ++ (old_data cfg).1 ++ (new_data cfg).1 ++
            ["No data available for the specified dates and domain."],
            by simp [run_ui, hb, hs, hcond]⟩
        · refine ⟨["Fetching data..."] ++ (old_data cfg).1 ++ (new_data cfg).1, ?_⟩
          simp only [Bool.not_eq_true] at hcond
          simp [run_ui, hb, hs, hcond]
  · cases hb : cfg.buttonPressed with
    | false => simp [run_ui, hb]
    | true =>
      cases hs : cfg.serviceOk with
      | false => simp [run_ui, hb, hs]
      | true =>
        by_cases hcond : ((old_data cfg).2.isEmpty || (new_data cfg).2.isEmpty) = true
        · simp [run_ui, hb, hs, hcond]
        · simp only [Bool.not_eq_true] at hcond
          simp [run_ui, hb, hs, hcond]
  · intro hb hs h1 h2
    have hcond : ((old_data cfg).2.isEmpty || (new_data cfg).2.isEmpty) = false := by
      simp [List.isEmpty_iff, h1, h2]
    simp [run_ui, hb, hs, hcond]

/-- Witness for the amended C9 at the concrete bad-dates configuration. -/
theorem date_validation_reported_not_terminal_witness :
    "Previous Week Start Date must be earlier than End Date." ∈ dateErrors cfgBadDates ∧
    (run_ui cfgBadDates).fetchCalls = 2 := by
  have h := date_validation_reported_not_terminal cfgBadDates
    (Or.inl (by norm_num [cfgBadDates]))
  refine ⟨h.1 (by norm_num [cfgBadDates]), ?_⟩
  rw [h.2.2.2.2.1]
  simp [cfgBadDates, UIConfig.serviceOk]
